import Mathlib

/-!
# Chemical dosage optimizer — shallow embedding

A shallow embedding of the dosage-optimization core of the repository
(`src/backend/lambda_function.py`, the development variant, and
`src/backend/lambda_function_prod.py`, the Corva production variant), and
proofs about it.

Python floats are modelled as `ℚ` (all arithmetic in the pipeline is
+, -, *, /, abs, comparisons); Python `int` timestamps as `ℤ`.  Fallible
Python code (expressions that can raise, such as `float("abc")` or
`round(None, 3)`) is modelled with `Option`: `none` is an uncaught
exception.  Loosely-typed raw input values (entries of the dicts fed to
`ProductionData.from_record` and `WellSettings.from_database`) are modelled
by `RawVal`: a number, an explicit `None`, or a truthy non-numeric value
(e.g. a non-empty non-numeric string).  A missing key is `Option.none`
around `RawVal`.  (Falsy non-numeric values such as `""` are not needed by
any claim and are not modelled.)
-/

/-- Status flags for dosage optimization results (`StatusFlag` enum,
identical in both source files). -/
inductive StatusFlag where
  | OPTIMAL
  | OVER_DOSING
  | UNDER_DOSING
  | PUMP_OFF
  | ERROR
  | NO_DATA
deriving DecidableEq, Repr

/-- Conversion constant `WATER_LBS_PER_BBL = 350.0`. -/
def WATER_LBS_PER_BBL : ℚ := 350

/-- Conversion constant `KG_TO_LBS = 2.20462`. -/
def KG_TO_LBS : ℚ := 2.20462

/-- Conversion constant `LITERS_PER_GALLON = 3.78541`. -/
def LITERS_PER_GALLON : ℚ := 3.78541

/-- Conversion constant `PPM_DIVISOR = 1_000_000`. -/
def PPM_DIVISOR : ℚ := 1000000

/-- Safety threshold `SPIKE_THRESHOLD_PERCENT = 500`. -/
def SPIKE_THRESHOLD_PERCENT : ℚ := 500

/-- Safety threshold `NO_DATA_TIMEOUT_SECONDS = 300`. -/
def NO_DATA_TIMEOUT_SECONDS : ℤ := 300

/-- Safety threshold `UNDER_DOSE_THRESHOLD_PERCENT = 10`. -/
def UNDER_DOSE_THRESHOLD_PERCENT : ℚ := 10

/-- A loosely-typed raw input value from a record/settings dict:
a number, an explicit `None`, or a truthy non-numeric value (a
non-empty non-numeric string, say) on which `float()` / `int()` raise
and comparisons raise `TypeError`. -/
inductive RawVal where
  | num (q : ℚ)
  | null
  | nonNum
deriving DecidableEq, Repr

/-- Python `float(v)` on a raw value: numbers pass through, anything else
raises (modelled as `none`). -/
def pyFloat : RawVal → Option ℚ
  | .num q => some q
  | .null => none
  | .nonNum => none

/-- Python `int(v)` on a raw value: numbers are truncated toward zero
(`int(2.7) = 2`, `int(-2.7) = -2`), anything else raises. -/
def pyInt : RawVal → Option ℤ
  | .num q => some (if 0 ≤ q then ⌊q⌋ else ⌈q⌉)
  | .null => none
  | .nonNum => none

/-- `DefaultSettings` values and `WellSettings` field types:
`target_ppm : int`, the rest floats. -/
structure WellSettings where
  target_ppm : ℤ
  chemical_density : ℚ
  active_intensity : ℚ
  cost_per_gallon : ℚ
  min_pump_rate : ℚ
  max_pump_rate : ℚ
deriving DecidableEq, Repr

/-- The `DefaultSettings` dataclass: TARGET_PPM=200, CHEMICAL_DENSITY=1.0,
ACTIVE_INTENSITY=100.0, COST_PER_GALLON=10.0, MIN_PUMP_RATE=0.5,
MAX_PUMP_RATE=50.0. -/
def default_settings : WellSettings :=
  { target_ppm := 200
    chemical_density := 1
    active_intensity := 100
    cost_per_gallon := 10
    min_pump_rate := 0.5
    max_pump_rate := 50 }

/-- The raw settings mapping passed to `WellSettings.from_database`:
each field either missing (`none`) or present with a loosely-typed value. -/
structure RawSettings where
  target_ppm : Option RawVal
  chemical_density : Option RawVal
  active_intensity : Option RawVal
  cost_per_gallon : Option RawVal
  min_pump_rate : Option RawVal
  max_pump_rate : Option RawVal
deriving DecidableEq, Repr

/-- `int(settings.get(key, default))`: a missing key yields the (already
well-typed) default, a present value goes through `int()` and may raise. -/
def getInt (v : Option RawVal) (d : ℤ) : Option ℤ :=
  match v with
  | none => some d
  | some w => pyInt w

/-- `float(settings.get(key, default))`: a missing key yields the default,
a present value goes through `float()` and may raise. -/
def getFloat (v : Option RawVal) (d : ℚ) : Option ℚ :=
  match v with
  | none => some d
  | some w => pyFloat w

/-- `WellSettings.from_database` (identical in both source files): `None`
or an empty/falsy mapping yields all defaults; otherwise each field is
read with `settings.get(key, default)` and coerced with `int`/`float`
(which raises on an unparseable present value — modelled as `none`). -/
def WellSettings.from_database (settings : Option RawSettings) : Option WellSettings :=
  match settings with
  | none => some default_settings
  | some s => do
    let t ← getInt s.target_ppm 200
    let cd ← getFloat s.chemical_density 1
    let ai ← getFloat s.active_intensity 100
    let cg ← getFloat s.cost_per_gallon 10
    let mn ← getFloat s.min_pump_rate 0.5
    let mx ← getFloat s.max_pump_rate 50
    some { target_ppm := t, chemical_density := cd, active_intensity := ai
           cost_per_gallon := cg, min_pump_rate := mn, max_pump_rate := mx }

/-- `ProductionData`: one validated telemetry sample. -/
structure ProductionData where
  timestamp : ℤ
  gross_fluid_rate : ℚ
  water_cut : ℚ
  current_injection_rate : ℚ
  pump_status : Bool
deriving DecidableEq, Repr

/-- The raw record passed to `ProductionData.from_record`. -/
structure RawRecord where
  timestamp : Option ℤ
  gross_fluid_rate : Option RawVal
  water_cut : Option RawVal
  current_injection_rate : Option RawVal
deriving DecidableEq, Repr

/-- `float(record.get(key, 0) or 0)`: a missing key or a falsy value
(`None`, `0`) coerces to `0`; a truthy numeric value passes through
`float`; a truthy non-numeric value makes `float()` raise. -/
def coerceRate (v : Option RawVal) : Option ℚ :=
  match v with
  | none => some 0
  | some .null => some 0
  | some (.num q) => some q
  | some .nonNum => none

/-- The water-cut block of `from_record`:
`wc = record.get('water_cut')`; if `wc is None or not (0 <= wc <= 100)`
use the carried last valid value, else `float(wc)`.  A present non-numeric
value raises `TypeError` in the chained comparison. -/
def coerceWaterCut (v : Option RawVal) (last_valid_water_cut : ℚ) : Option ℚ :=
  match v with
  | none => some last_valid_water_cut
  | some .null => some last_valid_water_cut
  | some (.num q) => if 0 ≤ q ∧ q ≤ 100 then some q else some last_valid_water_cut
  | some .nonNum => none

/-- `ProductionData.from_record(record, last_valid_water_cut)`.  The
`now` argument models `int(datetime.now().timestamp())`, used only when
the record has no timestamp.  `pump_status` is derived as
`gross_fluid_rate > 0`.  `none` models an uncaught exception. -/
def ProductionData.from_record (record : RawRecord) (now : ℤ)
    (last_valid_water_cut : ℚ) : Option ProductionData :=
  match coerceRate record.gross_fluid_rate,
        coerceWaterCut record.water_cut last_valid_water_cut,
        coerceRate record.current_injection_rate with
  | some g, some wc, some inj =>
      some { timestamp := record.timestamp.getD now
             gross_fluid_rate := g
             water_cut := wc
             current_injection_rate := inj
             pump_status := decide (0 < g) }
  | _, _, _ => none

/-- `OptimizationResult`: the pipeline output.  The fields the pipeline
sets to `None` on NO_DATA/ERROR are `Option ℚ`. -/
structure OptimizationResult where
  timestamp : ℤ
  recommended_rate_gpd : Option ℚ
  actual_rate_gpd : ℚ
  savings_opportunity_usd : Option ℚ
  status_flag : StatusFlag
  water_bpd : Option ℚ
  current_ppm : Option ℚ
  target_ppm : ℤ
deriving DecidableEq, Repr

/-- Python 3 `round(x, n)` on our exact rationals: round half to even at
`n` decimal places. -/
def pyRound (x : ℚ) : ℤ :=
  let f := ⌊x⌋
  let r := x - f
  if r < 1/2 then f
  else if 1/2 < r then f + 1
  else if f % 2 = 0 then f else f + 1

/-- `round(x, n)`: scale, round half to even, unscale. -/
def roundTo (x : ℚ) (n : ℕ) : ℚ := (pyRound (x * 10 ^ n) : ℚ) / 10 ^ n

/-- The dict produced by `to_dict` in either source file. -/
structure ResultDict where
  timestamp : ℤ
  recommended_rate_gpd : Option ℚ
  actual_rate_gpd : ℚ
  savings_opportunity_usd : Option ℚ
  status_flag : StatusFlag
  water_bpd : Option ℚ
  current_ppm : Option ℚ
  target_ppm : ℤ
deriving DecidableEq, Repr

/-- `OptimizationResult.to_dict` of `lambda_function.py` (dev): it calls
`round(field, n)` unconditionally, so when any of the optional fields is
`None` (NO_DATA / ERROR results) `round(None, n)` raises `TypeError` —
modelled as `none`. -/
def OptimizationResult.to_dict (r : OptimizationResult) : Option ResultDict :=
  match r.recommended_rate_gpd, r.savings_opportunity_usd, r.water_bpd, r.current_ppm with
  | some a, some sv, some w, some c =>
      some { timestamp := r.timestamp
             recommended_rate_gpd := some (roundTo a 3)
             actual_rate_gpd := roundTo r.actual_rate_gpd 3
             savings_opportunity_usd := some (roundTo sv 2)
             status_flag := r.status_flag
             water_bpd := some (roundTo w 2)
             current_ppm := some (roundTo c 1)
             target_ppm := r.target_ppm }
  | _, _, _, _ => none

/-- `round(x, n) if x else None` of `lambda_function_prod.py`: the Python
truthiness test sends both `None` and `0`/`0.0` to `None`. -/
def truthyRound (v : Option ℚ) (n : ℕ) : Option ℚ :=
  match v with
  | none => none
  | some q => if q = 0 then none else some (roundTo q n)

/-- `OptimizationResult.to_dict` of `lambda_function_prod.py` (prod):
each optional field is `round(field, n) if field else None`;
`actual_rate_gpd` is rounded unconditionally. -/
def OptimizationResult.prod_to_dict (r : OptimizationResult) : ResultDict :=
  { timestamp := r.timestamp
    recommended_rate_gpd := truthyRound r.recommended_rate_gpd 3
    actual_rate_gpd := roundTo r.actual_rate_gpd 3
    savings_opportunity_usd := truthyRound r.savings_opportunity_usd 2
    status_flag := r.status_flag
    water_bpd := truthyRound r.water_bpd 2
    current_ppm := truthyRound r.current_ppm 1
    target_ppm := r.target_ppm }

/-- The two validation failure outcomes of `validate_and_filter`
(`"NO_DATA_TIMEOUT"` and `"SPIKE_DETECTED"`). -/
inductive ValidationError where
  | noDataTimeout
  | spikeDetected
deriving DecidableEq, Repr

/-- `ChemicalOptimizer` carried state: `_last_valid_water_cut`
(initialized to `50.0`) and `_last_data_timestamp` (initially `None`).
(`lambda_function.py` also has an unused, never-read
`_last_gross_fluid_rate`; it is omitted.) -/
structure OptState where
  last_valid_water_cut : ℚ
  last_data_timestamp : Option ℤ
deriving DecidableEq, Repr

/-- A fresh optimizer's state (`ChemicalOptimizer.__init__`). -/
def initState : OptState := { last_valid_water_cut := 50, last_data_timestamp := none }

/-- The staleness test of `validate_and_filter`:
`if self._last_data_timestamp:` is Python truthiness, so a recorded
timestamp of `0` does NOT enter the staleness branch; otherwise the
branch fires when `data.timestamp - last > NO_DATA_TIMEOUT_SECONDS`. -/
def staleFires (st : OptState) (ts : ℤ) : Bool :=
  match st.last_data_timestamp with
  | none => false
  | some t => if t = 0 then false else decide (ts - t > NO_DATA_TIMEOUT_SECONDS)

/-- The spike test of `validate_and_filter`:
`previous_rate is not None and previous_rate > 0` and
`abs(current - previous) / previous * 100 > SPIKE_THRESHOLD_PERCENT`. -/
def spikeFires (gross_fluid_rate : ℚ) (previous_rate : Option ℚ) : Bool :=
  match previous_rate with
  | none => false
  | some p =>
      if 0 < p then decide (|gross_fluid_rate - p| / p * 100 > SPIKE_THRESHOLD_PERCENT)
      else false

/-- `ChemicalOptimizer.validate_and_filter` (identical logic in both
source files): staleness check, then spike check, and only if both pass,
the state update (`_last_data_timestamp = data.timestamp`; water cut
recorded when `0 <= data.water_cut <= 100`).  Returns the validation
error (if any) together with the new state; `(some e, st)` models
`return False, e` before the update. -/
def validate_and_filter (st : OptState) (data : ProductionData)
    (previous_rate : Option ℚ) : Option ValidationError × OptState :=
  if staleFires st data.timestamp then (some .noDataTimeout, st)
  else if spikeFires data.gross_fluid_rate previous_rate then (some .spikeDetected, st)
  else (none,
    { last_valid_water_cut :=
        if 0 ≤ data.water_cut ∧ data.water_cut ≤ 100 then data.water_cut
        else st.last_valid_water_cut
      last_data_timestamp := some data.timestamp })

/-- `ChemicalOptimizer.calculate_water_volume`:
`gross_fluid_rate * (water_cut / 100)`. -/
def calculate_water_volume (data : ProductionData) : ℚ :=
  data.gross_fluid_rate * (data.water_cut / 100)

/-- The intensity divisor of `lambda_function.py` (dev):
`intensity_factor = active_intensity / 100`, replaced by `1.0` when
`<= 0` ("Safety fallback"). -/
def devIntensityFactor (active_intensity : ℚ) : ℚ :=
  if active_intensity / 100 ≤ 0 then 1 else active_intensity / 100

/-- The intensity divisor of `lambda_function_prod.py` (prod):
`max(active_intensity / 100, 0.01)`. -/
def prodIntensityFactor (active_intensity : ℚ) : ℚ :=
  max (active_intensity / 100) 0.01

/-- `ChemicalOptimizer.calculate_required_chemical_volume` of
`lambda_function.py` (dev). -/
def calculate_required_chemical_volume (s : WellSettings) (water_bpd : ℚ) : ℚ :=
  if water_bpd ≤ 0 then 0
  else
    let water_mass_lbs := water_bpd * WATER_LBS_PER_BBL
    let pure_chemical_mass_lbs := water_mass_lbs * ((s.target_ppm : ℚ) / PPM_DIVISOR)
    let gross_chemical_mass_lbs := pure_chemical_mass_lbs / devIntensityFactor s.active_intensity
    let gross_chemical_mass_kg := gross_chemical_mass_lbs / KG_TO_LBS
    let volume_liters := gross_chemical_mass_kg / s.chemical_density
    volume_liters / LITERS_PER_GALLON

/-- `ChemicalOptimizer.calculate_required_chemical_volume` of
`lambda_function_prod.py` (prod): same chain with
`max(active_intensity / 100, 0.01)` as the divisor. -/
def prod_calculate_required_chemical_volume (s : WellSettings) (water_bpd : ℚ) : ℚ :=
  if water_bpd ≤ 0 then 0
  else
    let water_mass_lbs := water_bpd * WATER_LBS_PER_BBL
    let pure_chemical_mass_lbs := water_mass_lbs * ((s.target_ppm : ℚ) / PPM_DIVISOR)
    let gross_chemical_mass_lbs := pure_chemical_mass_lbs / prodIntensityFactor s.active_intensity
    let gross_chemical_mass_kg := gross_chemical_mass_lbs / KG_TO_LBS
    let volume_liters := gross_chemical_mass_kg / s.chemical_density
    volume_liters / LITERS_PER_GALLON

/-- `ChemicalOptimizer.apply_constraints` of `lambda_function.py` (dev). -/
def apply_constraints (s : WellSettings) (recommended_gpd : ℚ) : ℚ :=
  if recommended_gpd ≤ 0 then 0
  else if recommended_gpd < s.min_pump_rate then s.min_pump_rate
  else if recommended_gpd > s.max_pump_rate then s.max_pump_rate
  else recommended_gpd

/-- `ChemicalOptimizer.apply_constraints` of `lambda_function_prod.py`:
`max(min_pump_rate, min(recommended, max_pump_rate))` for positive input. -/
def prod_apply_constraints (s : WellSettings) (recommended_gpd : ℚ) : ℚ :=
  if recommended_gpd ≤ 0 then 0
  else max s.min_pump_rate (min recommended_gpd s.max_pump_rate)

/-- `ChemicalOptimizer.calculate_financial_impact`:
`(current - recommended) * cost_per_gallon`. -/
def calculate_financial_impact (s : WellSettings) (current_rate recommended_rate : ℚ) : ℚ :=
  (current_rate - recommended_rate) * s.cost_per_gallon

/-- `ChemicalOptimizer.determine_status` of `lambda_function.py` (dev),
with its optional `validation_error` argument. -/
def determine_status (s : WellSettings) (data : ProductionData)
    (recommended_rate : ℚ) (validation_error : Option ValidationError) : StatusFlag :=
  let _ := s
  match validation_error with
  | some .noDataTimeout => .NO_DATA
  | some .spikeDetected => .ERROR
  | none =>
    if data.pump_status = false ∨ data.gross_fluid_rate ≤ 0 then .PUMP_OFF
    else if recommended_rate ≤ 0 then .PUMP_OFF
    else
      let diff_percent := (data.current_injection_rate - recommended_rate) / recommended_rate * 100
      if diff_percent > UNDER_DOSE_THRESHOLD_PERCENT then .OVER_DOSING
      else if diff_percent < -UNDER_DOSE_THRESHOLD_PERCENT then .UNDER_DOSING
      else .OPTIMAL

/-- `ChemicalOptimizer.determine_status` of `lambda_function_prod.py`
(no `validation_error` argument). -/
def prod_determine_status (s : WellSettings) (data : ProductionData)
    (recommended_rate : ℚ) : StatusFlag :=
  let _ := s
  if data.pump_status = false ∨ data.gross_fluid_rate ≤ 0 then .PUMP_OFF
  else if recommended_rate ≤ 0 then .PUMP_OFF
  else
    let diff_percent := (data.current_injection_rate - recommended_rate) / recommended_rate * 100
    if diff_percent > UNDER_DOSE_THRESHOLD_PERCENT then .OVER_DOSING
    else if diff_percent < -UNDER_DOSE_THRESHOLD_PERCENT then .UNDER_DOSING
    else .OPTIMAL

/-- `ChemicalOptimizer.calculate_current_ppm` (same logic in both files):
the reverse conversion chain from `current_injection_rate` back to PPM. -/
def calculate_current_ppm (s : WellSettings) (data : ProductionData)
    (water_bpd : ℚ) : ℚ :=
  if water_bpd ≤ 0 ∨ data.current_injection_rate ≤ 0 then 0
  else
    let volume_liters := data.current_injection_rate * LITERS_PER_GALLON
    let mass_kg := volume_liters * s.chemical_density
    let gross_mass_lbs := mass_kg * KG_TO_LBS
    let pure_mass_lbs := gross_mass_lbs * (s.active_intensity / 100)
    let water_mass_lbs := water_bpd * WATER_LBS_PER_BBL
    if water_mass_lbs ≤ 0 then 0
    else pure_mass_lbs / water_mass_lbs * PPM_DIVISOR

/-- `ChemicalOptimizer.optimize` of `lambda_function.py` (dev).  The state
is threaded explicitly: `validate_and_filter` runs (and may update state)
BEFORE the pump-off check; the result is paired with the post-call state. -/
def optimize (s : WellSettings) (st : OptState) (data : ProductionData)
    (previous_rate : Option ℚ) : OptimizationResult × OptState :=
  let v := validate_and_filter st data previous_rate
  if data.pump_status = false ∨ data.gross_fluid_rate ≤ 0 then
    ({ timestamp := data.timestamp
       recommended_rate_gpd := some 0
       actual_rate_gpd := data.current_injection_rate
       savings_opportunity_usd := some (data.current_injection_rate * s.cost_per_gallon)
       status_flag := .PUMP_OFF
       water_bpd := some 0
       current_ppm := some 0
       target_ppm := s.target_ppm }, v.2)
  else
    match v.1 with
    | some .noDataTimeout =>
        ({ timestamp := data.timestamp
           recommended_rate_gpd := none
           actual_rate_gpd := data.current_injection_rate
           savings_opportunity_usd := none
           status_flag := .NO_DATA
           water_bpd := none
           current_ppm := none
           target_ppm := s.target_ppm }, v.2)
    | some .spikeDetected =>
        ({ timestamp := data.timestamp
           recommended_rate_gpd := none
           actual_rate_gpd := data.current_injection_rate
           savings_opportunity_usd := none
           status_flag := .ERROR
           water_bpd := none
           current_ppm := none
           target_ppm := s.target_ppm }, v.2)
    | none =>
        let water_bpd := calculate_water_volume data
        let raw_recommended_gpd := calculate_required_chemical_volume s water_bpd
        let recommended_gpd := apply_constraints s raw_recommended_gpd
        let savings_opportunity :=
          calculate_financial_impact s data.current_injection_rate recommended_gpd
        let current_ppm := calculate_current_ppm s data water_bpd
        let status := determine_status s data recommended_gpd none
        ({ timestamp := data.timestamp
           recommended_rate_gpd := some recommended_gpd
           actual_rate_gpd := data.current_injection_rate
           savings_opportunity_usd := some savings_opportunity
           status_flag := status
           water_bpd := some water_bpd
           current_ppm := some current_ppm
           target_ppm := s.target_ppm }, v.2)

/-- `ChemicalOptimizer.optimize` of `lambda_function_prod.py` (prod):
same structure; on a validation error the status is `ERROR` when the
error is `SPIKE_DETECTED`, else `NO_DATA`. -/
def prod_optimize (s : WellSettings) (st : OptState) (data : ProductionData)
    (previous_rate : Option ℚ) : OptimizationResult × OptState :=
  let v := validate_and_filter st data previous_rate
  if data.pump_status = false ∨ data.gross_fluid_rate ≤ 0 then
    ({ timestamp := data.timestamp
       recommended_rate_gpd := some 0
       actual_rate_gpd := data.current_injection_rate
       savings_opportunity_usd := some (data.current_injection_rate * s.cost_per_gallon)
       status_flag := .PUMP_OFF
       water_bpd := some 0
       current_ppm := some 0
       target_ppm := s.target_ppm }, v.2)
  else
    match v.1 with
    | some e =>
        ({ timestamp := data.timestamp
           recommended_rate_gpd := none
           actual_rate_gpd := data.current_injection_rate
           savings_opportunity_usd := none
           status_flag := if e = .spikeDetected then .ERROR else .NO_DATA
           water_bpd := none
           current_ppm := none
           target_ppm := s.target_ppm }, v.2)
    | none =>
        let water_bpd := calculate_water_volume data
        let raw_recommended_gpd := prod_calculate_required_chemical_volume s water_bpd
        let recommended_gpd := prod_apply_constraints s raw_recommended_gpd
        let savings_opportunity :=
          calculate_financial_impact s data.current_injection_rate recommended_gpd
        let current_ppm := calculate_current_ppm s data water_bpd
        let status := prod_determine_status s data recommended_gpd
        ({ timestamp := data.timestamp
           recommended_rate_gpd := some recommended_gpd
           actual_rate_gpd := data.current_injection_rate
           savings_opportunity_usd := some savings_opportunity
           status_flag := status
           water_bpd := some water_bpd
           current_ppm := some current_ppm
           target_ppm := s.target_ppm }, v.2)

/-- A sequence of `optimize` calls on one dev optimizer, threading the
carried state (the batch driver's per-well loop). -/
def runCalls (s : WellSettings) (st : OptState) :
    List (ProductionData × Option ℚ) → OptState
  | [] => st
  | (d, p) :: rest => runCalls s (optimize s st d p).2 rest

/-- The second component of `optimize` is always the state returned by
`validate_and_filter` (every branch of `optimize` returns `v.2`). -/
theorem optimize_snd (s : WellSettings) (st : OptState) (data : ProductionData)
    (previous_rate : Option ℚ) :
    (optimize s st data previous_rate).2 = (validate_and_filter st data previous_rate).2 := by
  simp only [optimize]
  split
  · rfl
  · split <;> rfl

/-- Claim C1: a Sample with `pump_status` false or `gross_fluid_rate ≤ 0`
makes `optimize` (both the dev and the prod variant) return, for any
configuration, carried state and previous rate, the PUMP_OFF result with
`recommended_rate = 0`, `water_volume = 0`, `current_ppm = 0` and
`savings_or_waste = current_injection_rate * cost_per_gallon`; none of the
later pipeline steps contributes to the result. -/
theorem c1_pump_off_short_circuit (s : WellSettings) (st : OptState)
    (data : ProductionData) (previous_rate : Option ℚ)
    (h : data.pump_status = false ∨ data.gross_fluid_rate ≤ 0) :
    (optimize s st data previous_rate).1 =
      { timestamp := data.timestamp
        recommended_rate_gpd := some 0
        actual_rate_gpd := data.current_injection_rate
        savings_opportunity_usd := some (data.current_injection_rate * s.cost_per_gallon)
        status_flag := .PUMP_OFF
        water_bpd := some 0
        current_ppm := some 0
        target_ppm := s.target_ppm } ∧
    (prod_optimize s st data previous_rate).1 =
      { timestamp := data.timestamp
        recommended_rate_gpd := some 0
        actual_rate_gpd := data.current_injection_rate
        savings_opportunity_usd := some (data.current_injection_rate * s.cost_per_gallon)
        status_flag := .PUMP_OFF
        water_bpd := some 0
        current_ppm := some 0
        target_ppm := s.target_ppm } := by
  constructor
  · simp only [optimize]
    rw [if_pos h]
  · simp only [prod_optimize]
    rw [if_pos h]

/-- Witness for C1 at a concrete pump-off sample (`gross_fluid_rate = 0`,
`current_injection_rate = 2`, default settings). -/
theorem c1_witness :
    (optimize default_settings initState ⟨1000, 0, 30, 2, false⟩ none).1 =
      { timestamp := 1000
        recommended_rate_gpd := some 0
        actual_rate_gpd := 2
        savings_opportunity_usd := some (2 * 10)
        status_flag := .PUMP_OFF
        water_bpd := some 0
        current_ppm := some 0
        target_ppm := 200 } ∧
    (prod_optimize default_settings initState ⟨1000, 0, 30, 2, false⟩ none).1 =
      { timestamp := 1000
        recommended_rate_gpd := some 0
        actual_rate_gpd := 2
        savings_opportunity_usd := some (2 * 10)
        status_flag := .PUMP_OFF
        water_bpd := some 0
        current_ppm := some 0
        target_ppm := 200 } :=
  c1_pump_off_short_circuit default_settings initState ⟨1000, 0, 30, 2, false⟩ none
    (Or.inl rfl)

/-- Claim C2 (code bug): serialization does NOT behave as claimed.
The prod `to_dict` turns the valid value `0.0` into null (its
`round(x, n) if x else None` truthiness test), as shown on the PUMP_OFF
result of a pump-off sample, whose `recommended_rate_gpd`, `water_bpd`
and `current_ppm` are all `some 0` yet serialize to `none`; and the dev
`to_dict` calls `round(None, 3)` on a NO_DATA result, i.e. raises instead
of serializing with null fields. -/
theorem c2_serialization_bug :
    ((optimize default_settings initState ⟨1000, 0, 30, 2, false⟩ none).1.recommended_rate_gpd
        = some 0 ∧
     (optimize default_settings initState ⟨1000, 0, 30, 2, false⟩ none).1.status_flag
        = StatusFlag.PUMP_OFF ∧
     ((optimize default_settings initState ⟨1000, 0, 30, 2, false⟩ none).1.prod_to_dict).recommended_rate_gpd
        = none ∧
     ((optimize default_settings initState ⟨1000, 0, 30, 2, false⟩ none).1.prod_to_dict).water_bpd
        = none) ∧
    ((optimize default_settings ⟨50, some 100⟩ ⟨100000, 1000, 50, 5, true⟩ none).1.status_flag
        = StatusFlag.NO_DATA ∧
     ((optimize default_settings ⟨50, some 100⟩ ⟨100000, 1000, 50, 5, true⟩ none).1).to_dict
        = none) := by
  refine ⟨⟨rfl, rfl, rfl, rfl⟩, rfl, rfl⟩

/-- Claim C3, counterexample: a recorded last timestamp of `0` (reachable:
the first call with a timestamp-0 sample records it) defeats the staleness
check, because `if self._last_data_timestamp:` is Python truthiness.  With
last timestamp recorded as `0` and a sample at `timestamp = 1000` (gap
`1000 > 300`), the claim demands a NO_DATA result, but the pipeline
computes a normal result. -/
theorem c3_counterexample :
    (optimize default_settings initState ⟨0, 1000, 50, 5, true⟩ none).2.last_data_timestamp
      = some 0 ∧
    (optimize default_settings ⟨50, some 0⟩ ⟨1000, 1000, 50, 5, true⟩ none).1.status_flag
      ≠ StatusFlag.NO_DATA ∧
    (optimize default_settings ⟨50, some 0⟩ ⟨1000, 1000, 50, 5, true⟩ none).1.recommended_rate_gpd
      ≠ none := by
  refine ⟨by rw [optimize_snd]; rfl, ?_, ?_⟩ <;>
    norm_num [optimize, validate_and_filter, staleFires, spikeFires, calculate_water_volume,
      calculate_required_chemical_volume, apply_constraints, devIntensityFactor,
      calculate_financial_impact, calculate_current_ppm, determine_status,
      WATER_LBS_PER_BBL, KG_TO_LBS, LITERS_PER_GALLON, PPM_DIVISOR,
      NO_DATA_TIMEOUT_SECONDS, UNDER_DOSE_THRESHOLD_PERCENT, default_settings] <;>
    decide

/-- Claim C3 (amended): when a previous NONZERO timestamp is recorded and
`timestamp - last > 300`, a flowing sample (`gross_fluid_rate > 0`,
`pump_status` true) yields a Result with all derived numeric fields null
and status NO_DATA, and the carried state is left unchanged.  (The
amendment excludes a recorded timestamp of exactly `0`, which the
source's truthiness test treats as "no previous timestamp".) -/
theorem c3_staleness_null_result (s : WellSettings) (st : OptState)
    (data : ProductionData) (previous_rate : Option ℚ) (t : ℤ)
    (hrec : st.last_data_timestamp = some t) (ht : t ≠ 0)
    (hgap : data.timestamp - t > 300)
    (hpump : data.pump_status = true) (hg : 0 < data.gross_fluid_rate) :
    (optimize s st data previous_rate).1 =
      { timestamp := data.timestamp
        recommended_rate_gpd := none
        actual_rate_gpd := data.current_injection_rate
        savings_opportunity_usd := none
        status_flag := .NO_DATA
        water_bpd := none
        current_ppm := none
        target_ppm := s.target_ppm } ∧
    (optimize s st data previous_rate).2 = st := by
  have hstale : staleFires st data.timestamp = true := by
    simp only [staleFires, hrec, NO_DATA_TIMEOUT_SECONDS]
    rw [if_neg ht]
    exact decide_eq_true hgap
  have hv : validate_and_filter st data previous_rate = (some .noDataTimeout, st) := by
    simp only [validate_and_filter, hstale, if_true]
  have hcond : ¬(data.pump_status = false ∨ data.gross_fluid_rate ≤ 0) := by
    push_neg
    exact ⟨by simp [hpump], hg⟩
  simp only [optimize, hv]
  rw [if_neg hcond]
  exact ⟨rfl, rfl⟩

/-- Witness for C3 at a concrete stale input: last timestamp recorded as
`100`, sample at `100000`. -/
theorem c3_witness :
    (optimize default_settings ⟨50, some 100⟩ ⟨100000, 1000, 50, 5, true⟩ none).1 =
      { timestamp := 100000
        recommended_rate_gpd := none
        actual_rate_gpd := 5
        savings_opportunity_usd := none
        status_flag := .NO_DATA
        water_bpd := none
        current_ppm := none
        target_ppm := 200 } ∧
    (optimize default_settings ⟨50, some 100⟩ ⟨100000, 1000, 50, 5, true⟩ none).2 =
      ⟨50, some 100⟩ :=
  c3_staleness_null_result default_settings ⟨50, some 100⟩ ⟨100000, 1000, 50, 5, true⟩ none
    100 rfl (by decide) (by decide) rfl (by norm_num)

/-- Claim C4, counterexample: the spike branch is NOT reached when the
staleness branch fires first.  With last timestamp `100`, a sample at
`100000` with `gross_fluid_rate = 7000` and previous rate `1000` (a 600%
jump, above the 500% threshold), the claim demands status ERROR, but the
code returns NO_DATA. -/
theorem c4_counterexample :
    (optimize default_settings ⟨50, some 100⟩ ⟨100000, 7000, 50, 5, true⟩ (some 1000)).1.status_flag
      = StatusFlag.NO_DATA ∧
    StatusFlag.NO_DATA ≠ StatusFlag.ERROR := by
  exact ⟨rfl, by decide⟩

/-- Claim C4 (amended): for a flowing sample with a supplied previous rate
`p > 0`, PROVIDED the staleness branch does not fire, a relative change
above 500% yields the null-field ERROR result; and when the change is at
most 500% the spike branch is not taken. -/
theorem c4_spike_detection (s : WellSettings) (st : OptState)
    (data : ProductionData) (p : ℚ)
    (hp : 0 < p) (hpump : data.pump_status = true) (hg : 0 < data.gross_fluid_rate)
    (hstale : staleFires st data.timestamp = false) :
    (|data.gross_fluid_rate - p| / p * 100 > 500 →
      (optimize s st data (some p)).1 =
        { timestamp := data.timestamp
          recommended_rate_gpd := none
          actual_rate_gpd := data.current_injection_rate
          savings_opportunity_usd := none
          status_flag := .ERROR
          water_bpd := none
          current_ppm := none
          target_ppm := s.target_ppm }) ∧
    (|data.gross_fluid_rate - p| / p * 100 ≤ 500 →
      spikeFires data.gross_fluid_rate (some p) = false) := by
  constructor
  · intro hchange
    have hspike : spikeFires data.gross_fluid_rate (some p) = true := by
      simp only [spikeFires, SPIKE_THRESHOLD_PERCENT]
      rw [if_pos hp]
      exact decide_eq_true hchange
    have hv : validate_and_filter st data (some p) = (some .spikeDetected, st) := by
      simp only [validate_and_filter, hstale, hspike, if_true, Bool.false_eq_true,
        if_false]
    have hcond : ¬(data.pump_status = false ∨ data.gross_fluid_rate ≤ 0) := by
      push_neg
      exact ⟨by simp [hpump], hg⟩
    simp only [optimize, hv]
    rw [if_neg hcond]
  · intro hchange
    simp only [spikeFires, SPIKE_THRESHOLD_PERCENT]
    rw [if_pos hp]
    exact decide_eq_false (not_lt.mpr hchange)

/-- Witness for C4: the concrete 1000 → 7000 scenario.  The first call (at
timestamp 100) recorded the timestamp; the second call, 60 seconds later
with previous rate 1000 and current rate 7000 (600% jump), returns the
null-field ERROR result. -/
theorem c4_witness :
    (optimize default_settings ⟨50, some 100⟩ ⟨160, 7000, 50, 5, true⟩ (some 1000)).1 =
      { timestamp := 160
        recommended_rate_gpd := none
        actual_rate_gpd := 5
        savings_opportunity_usd := none
        status_flag := .ERROR
        water_bpd := none
        current_ppm := none
        target_ppm := 200 } :=
  (c4_spike_detection default_settings ⟨50, some 100⟩ ⟨160, 7000, 50, 5, true⟩ 1000
    (by norm_num) rfl (by norm_num) (by decide)).1 (by norm_num)

/-- A raw field that is either missing or a number (the inputs on which
`int()` / `float()` in `from_database` cannot raise). -/
def numOrMissing : Option RawVal → Prop
  | none => True
  | some (.num _) => True
  | some .null => False
  | some .nonNum => False

/-- The value `int(settings.get(key, d))` takes on a missing-or-numeric
field: the default when missing, the number truncated toward zero
otherwise. -/
def intFieldValue (v : Option RawVal) (d : ℤ) : ℤ :=
  match v with
  | some (.num q) => if 0 ≤ q then ⌊q⌋ else ⌈q⌉
  | _ => d

/-- The value `float(settings.get(key, d))` takes on a missing-or-numeric
field. -/
def floatFieldValue (v : Option RawVal) (d : ℚ) : ℚ :=
  match v with
  | some (.num q) => q
  | _ => d

/-- On a missing-or-numeric field, `getInt` succeeds with
`intFieldValue`. -/
theorem getInt_eq (v : Option RawVal) (d : ℤ) (h : numOrMissing v) :
    getInt v d = some (intFieldValue v d) := by
  cases v with
  | none => rfl
  | some w =>
    cases w with
    | num q => rfl
    | null => exact h.elim
    | nonNum => exact h.elim

/-- On a missing-or-numeric field, `getFloat` succeeds with
`floatFieldValue`. -/
theorem getFloat_eq (v : Option RawVal) (d : ℚ) (h : numOrMissing v) :
    getFloat v d = some (floatFieldValue v d) := by
  cases v with
  | none => rfl
  | some w =>
    cases w with
    | num q => rfl
    | null => exact h.elim
    | nonNum => exact h.elim

/-- Claim C5, counterexample: `from_database` is NOT total on arbitrary
mappings — a present field value that is unparseable as the target type
(e.g. `target_ppm = "abc"`) makes `int()` raise instead of falling back
to the default. -/
theorem c5_counterexample :
    WellSettings.from_database (some ⟨some .nonNum, none, none, none, none, none⟩) = none := rfl

/-- Claim C5 (amended): for an absent mapping, or a mapping each of whose
PRESENT field values is numeric, construction succeeds and each missing
field independently falls back to its fixed default (target_ppm=200,
chemical_density=1.0, active_intensity=100.0, cost_per_gallon=10.0,
min_pump_rate=0.5, max_pump_rate=50.0) while present numeric fields keep
their given values (target_ppm truncated to int).  A present unparseable
value makes construction raise (see the counterexample). -/
theorem c5_settings_fallback (s : RawSettings)
    (h1 : numOrMissing s.target_ppm) (h2 : numOrMissing s.chemical_density)
    (h3 : numOrMissing s.active_intensity) (h4 : numOrMissing s.cost_per_gallon)
    (h5 : numOrMissing s.min_pump_rate) (h6 : numOrMissing s.max_pump_rate) :
    WellSettings.from_database none = some default_settings ∧
    WellSettings.from_database (some s) = some
      { target_ppm := intFieldValue s.target_ppm 200
        chemical_density := floatFieldValue s.chemical_density 1
        active_intensity := floatFieldValue s.active_intensity 100
        cost_per_gallon := floatFieldValue s.cost_per_gallon 10
        min_pump_rate := floatFieldValue s.min_pump_rate 0.5
        max_pump_rate := floatFieldValue s.max_pump_rate 50 } := by
  refine ⟨rfl, ?_⟩
  simp only [WellSettings.from_database, getInt_eq s.target_ppm 200 h1,
    getFloat_eq s.chemical_density 1 h2, getFloat_eq s.active_intensity 100 h3,
    getFloat_eq s.cost_per_gallon 10 h4, getFloat_eq s.min_pump_rate 0.5 h5,
    getFloat_eq s.max_pump_rate 50 h6, Option.bind_eq_bind, Option.some_bind]

/-- Witness for C5: `target_ppm = 300`, `active_intensity = 85` and
`max_pump_rate = 2.5` given; the other three fields missing and
defaulted. -/
theorem c5_witness :
    WellSettings.from_database none = some default_settings ∧
    WellSettings.from_database
        (some ⟨some (.num 300), none, some (.num 85), none, none, some (.num 2.5)⟩) =
      some { target_ppm := 300, chemical_density := 1, active_intensity := 85,
             cost_per_gallon := 10, min_pump_rate := 0.5, max_pump_rate := 2.5 } :=
  c5_settings_fallback ⟨some (.num 300), none, some (.num 85), none, none, some (.num 2.5)⟩
    trivial trivial trivial trivial trivial trivial

/-- A raw field that is missing, an explicit null, or a number — the
inputs on which `from_record` cannot raise. -/
def numNullOrMissing : Option RawVal → Prop
  | none => True
  | some (.num _) => True
  | some .null => True
  | some .nonNum => False

/-- The value `float(record.get(key, 0) or 0)` takes on a non-raising
field: `0` when missing or null, the number itself otherwise. -/
def rateValue : Option RawVal → ℚ
  | some (.num q) => q
  | _ => 0

/-- The water cut `from_record` produces on a non-raising field: the
given number when in `[0, 100]`, the carried-forward last valid value
otherwise. -/
def waterCutValue (v : Option RawVal) (carry : ℚ) : ℚ :=
  match v with
  | some (.num q) => if 0 ≤ q ∧ q ≤ 100 then q else carry
  | _ => carry

/-- On a non-raising field, `coerceRate` succeeds with `rateValue`. -/
theorem coerceRate_eq (v : Option RawVal) (h : numNullOrMissing v) :
    coerceRate v = some (rateValue v) := by
  cases v with
  | none => rfl
  | some w =>
    cases w with
    | num q => rfl
    | null => rfl
    | nonNum => exact h.elim

/-- On a non-raising field, `coerceWaterCut` succeeds with
`waterCutValue`. -/
theorem coerceWaterCut_eq (v : Option RawVal) (c : ℚ) (h : numNullOrMissing v) :
    coerceWaterCut v c = some (waterCutValue v c) := by
  cases v with
  | none => rfl
  | some w =>
    cases w with
    | num q =>
      simp only [coerceWaterCut, waterCutValue]
      split <;> rfl
    | null => rfl
    | nonNum => exact h.elim

/-- Claim C6, counterexample: `from_record` is NOT total — a truthy
non-numeric `gross_fluid_rate` (e.g. the string `"abc"`) makes
`float()` raise instead of coercing to 0. -/
theorem c6_counterexample :
    ProductionData.from_record ⟨none, some .nonNum, none, none⟩ 0 50 = none := rfl

/-- Claim C6 (amended): for every record whose present field values are
numbers or nulls (the non-raising inputs), and every carried last valid
water cut, `from_record` succeeds and produces a Sample in which missing
or null `gross_fluid_rate` and `current_injection_rate` are 0, a
`water_cut` that is absent, null or outside `[0, 100]` is replaced by the
carried-forward value, and `pump_status` equals `gross_fluid_rate > 0`.
A present truthy non-numeric value makes construction raise (see the
counterexample). -/
theorem c6_from_record_total (r : RawRecord) (now : ℤ) (carry : ℚ)
    (h1 : numNullOrMissing r.gross_fluid_rate) (h2 : numNullOrMissing r.water_cut)
    (h3 : numNullOrMissing r.current_injection_rate) :
    ProductionData.from_record r now carry = some
      { timestamp := r.timestamp.getD now
        gross_fluid_rate := rateValue r.gross_fluid_rate
        water_cut := waterCutValue r.water_cut carry
        current_injection_rate := rateValue r.current_injection_rate
        pump_status := decide (0 < rateValue r.gross_fluid_rate) } := by
  unfold ProductionData.from_record
  rw [coerceRate_eq _ h1, coerceWaterCut_eq _ carry h2, coerceRate_eq _ h3]

/-- Witness for C6: gross rate 1000 (numeric), water cut 250 (numeric but
out of range, replaced by the carried 80), injection rate an explicit
null (coerced to 0); pump status derived true. -/
theorem c6_witness :
    ProductionData.from_record ⟨some 1000, some (.num 1000), some (.num 250), some .null⟩ 77 80 =
      some { timestamp := 1000, gross_fluid_rate := 1000, water_cut := 80,
             current_injection_rate := 0, pump_status := true } :=
  c6_from_record_total ⟨some 1000, some (.num 1000), some (.num 250), some .null⟩ 77 80
    trivial trivial trivial

/-- Claim C7: for a valid configuration (positive target PPM, density and
active intensity) and any `water_bpd > 0`, feeding the just-computed
required chemical volume back through the reverse PPM calculation
reproduces `target_ppm` exactly (the rational arithmetic cancels, so it
is in particular within any floating-point tolerance). -/
theorem c7_ppm_roundtrip (s : WellSettings) (data : ProductionData) (water_bpd : ℚ)
    (hw : 0 < water_bpd) (ht : 0 < s.target_ppm) (hd : 0 < s.chemical_density)
    (hi : 0 < s.active_intensity)
    (hinj : data.current_injection_rate = calculate_required_chemical_volume s water_bpd) :
    calculate_current_ppm s data water_bpd = (s.target_ppm : ℚ) := by
  have hK : (0 : ℚ) < KG_TO_LBS := by norm_num [KG_TO_LBS]
  have hL : (0 : ℚ) < LITERS_PER_GALLON := by norm_num [LITERS_PER_GALLON]
  have hW : (0 : ℚ) < WATER_LBS_PER_BBL := by norm_num [WATER_LBS_PER_BBL]
  have hP : (0 : ℚ) < PPM_DIVISOR := by norm_num [PPM_DIVISOR]
  have htq : (0 : ℚ) < (s.target_ppm : ℚ) := by exact_mod_cast ht
  have hIF : devIntensityFactor s.active_intensity = s.active_intensity / 100 := by
    unfold devIntensityFactor
    rw [if_neg (by push_neg; positivity)]
  have hval : calculate_required_chemical_volume s water_bpd =
      water_bpd * WATER_LBS_PER_BBL * ((s.target_ppm : ℚ) / PPM_DIVISOR) /
        (s.active_intensity / 100) / KG_TO_LBS / s.chemical_density / LITERS_PER_GALLON := by
    unfold calculate_required_chemical_volume
    rw [if_neg (not_le.mpr hw), hIF]
  have hpos : 0 < data.current_injection_rate := by
    rw [hinj, hval]
    positivity
  unfold calculate_current_ppm
  rw [if_neg (by push_neg; exact ⟨hw, hpos⟩)]
  rw [if_neg (not_le.mpr (by positivity))]
  rw [hinj, hval]
  field_simp
  ring

/-- Witness for C7: default settings, `water_bpd = 800`; the reverse
calculation on the just-computed required volume gives back 200 PPM. -/
theorem c7_witness :
    calculate_current_ppm default_settings
      ⟨100, 1000, 80, calculate_required_chemical_volume default_settings 800, true⟩ 800 =
      (default_settings.target_ppm : ℚ) :=
  c7_ppm_roundtrip default_settings
    ⟨100, 1000, 80, calculate_required_chemical_volume default_settings 800, true⟩ 800
    (by norm_num) (by decide) (by norm_num [default_settings])
    (by norm_num [default_settings]) rfl

/-- Claim C8, counterexample: a pump-off call does NOT leave the carried
state unchanged.  `validate_and_filter` (with its state update) runs
before the pump-off short-circuit in `optimize`, so a pump-off sample at
timestamp 1000 with water cut 30 records both. -/
theorem c8_counterexample :
    (optimize default_settings initState ⟨1000, 0, 30, 2, false⟩ none).2 ≠ initState := by
  rw [optimize_snd]
  decide

/-- Claim C8 (amended): on the pump-off short-circuit none of the LATER
pipeline steps runs and the Result is the fixed PUMP_OFF result, but the
validation step has already run: unless the staleness or spike branch
fired, the optimizer records the sample's timestamp as last seen and,
when the water cut is in `[0, 100]`, records it as last valid — the
carried state is updated, not preserved. -/
theorem c8_pump_off_state_update (s : WellSettings) (st : OptState)
    (data : ProductionData) (previous_rate : Option ℚ)
    (hoff : data.pump_status = false ∨ data.gross_fluid_rate ≤ 0)
    (hstale : staleFires st data.timestamp = false)
    (hspike : spikeFires data.gross_fluid_rate previous_rate = false) :
    (optimize s st data previous_rate).1 =
      { timestamp := data.timestamp
        recommended_rate_gpd := some 0
        actual_rate_gpd := data.current_injection_rate
        savings_opportunity_usd := some (data.current_injection_rate * s.cost_per_gallon)
        status_flag := .PUMP_OFF
        water_bpd := some 0
        current_ppm := some 0
        target_ppm := s.target_ppm } ∧
    (optimize s st data previous_rate).2 =
      { last_valid_water_cut :=
          if 0 ≤ data.water_cut ∧ data.water_cut ≤ 100 then data.water_cut
          else st.last_valid_water_cut
        last_data_timestamp := some data.timestamp } := by
  constructor
  · simp only [optimize]
    rw [if_pos hoff]
  · rw [optimize_snd]
    simp only [validate_and_filter, hstale, hspike, Bool.false_eq_true, if_false]

/-- Witness for C8: the pump-off sample of the counterexample; the state
afterwards holds water cut 30 and timestamp 1000. -/
theorem c8_witness :
    (optimize default_settings initState ⟨1000, 0, 30, 2, false⟩ none).1 =
      { timestamp := 1000
        recommended_rate_gpd := some 0
        actual_rate_gpd := 2
        savings_opportunity_usd := some (2 * 10)
        status_flag := .PUMP_OFF
        water_bpd := some 0
        current_ppm := some 0
        target_ppm := 200 } ∧
    (optimize default_settings initState ⟨1000, 0, 30, 2, false⟩ none).2 =
      { last_valid_water_cut := 30, last_data_timestamp := some 1000 } :=
  c8_pump_off_state_update default_settings initState ⟨1000, 0, 30, 2, false⟩ none
    (Or.inl rfl) rfl rfl

/-- Claim C9, counterexample: in `lambda_function.py` (dev) the intensity
divisor is NOT `max(active_intensity / 100, floor)` for any positive
floor: at `active_intensity = 0` the dev fallback gives `1`, forcing the
floor to be `1`, but at `active_intensity = 25` the dev divisor is
`0.25`, not `max(0.25, 1) = 1`. -/
theorem c9_counterexample :
    ¬ ∃ c : ℚ, 0 < c ∧ ∀ I : ℚ, devIntensityFactor I = max (I / 100) c := by
  rintro ⟨c, hc, h⟩
  have h0 := h 0
  have h25 := h 25
  simp only [devIntensityFactor] at h0 h25
  rw [if_pos (by norm_num)] at h0
  rw [if_neg (by norm_num)] at h25
  rw [show (0 : ℚ) / 100 = 0 by norm_num, max_eq_right hc.le] at h0
  rw [← h0, max_eq_right (by norm_num : (25 : ℚ) / 100 ≤ 1)] at h25
  norm_num at h25

/-- Claim C9 (amended): the intensity divisor is guarded in both files —
it is strictly positive for EVERY configuration value, so the division is
never by zero or a negative number; in prod it equals
`max(active_intensity / 100, 0.01)` (floor `1/100`), while in dev it is
`active_intensity / 100` when that is positive and the fallback `1.0`
otherwise (not a max). -/
theorem c9_intensity_guard (active_intensity : ℚ) :
    0 < devIntensityFactor active_intensity ∧
    prodIntensityFactor active_intensity = max (active_intensity / 100) (1 / 100) ∧
    0 < prodIntensityFactor active_intensity := by
  refine ⟨?_, ?_, ?_⟩
  · unfold devIntensityFactor
    split
    · norm_num
    · rename_i hpos
      exact not_le.mp hpos
  · norm_num [prodIntensityFactor]
  · unfold prodIntensityFactor
    exact lt_max_iff.mpr (Or.inr (by norm_num))

/-- One `optimize` call preserves `last_valid_water_cut ∈ [0, 100]`: the
stored value is either kept or overwritten by a sample water cut that the
guard has checked to be in `[0, 100]`. -/
theorem optimize_water_cut_step (s : WellSettings) (st : OptState)
    (d : ProductionData) (p : Option ℚ)
    (h : 0 ≤ st.last_valid_water_cut ∧ st.last_valid_water_cut ≤ 100) :
    0 ≤ (optimize s st d p).2.last_valid_water_cut ∧
      (optimize s st d p).2.last_valid_water_cut ≤ 100 := by
  rw [optimize_snd]
  unfold validate_and_filter
  split
  · exact h
  · split
    · exact h
    · dsimp only
      split
      · rename_i hw
        exact hw
      · exact h

/-- On a non-raising water-cut field, the produced water cut stays in
`[0, 100]` whenever the carried value is. -/
theorem coerceWaterCut_bounds (v : Option RawVal) (c wc : ℚ)
    (hc0 : 0 ≤ c) (hc1 : c ≤ 100)
    (h : coerceWaterCut v c = some wc) : 0 ≤ wc ∧ wc ≤ 100 := by
  cases v with
  | none =>
    simp only [coerceWaterCut, Option.some.injEq] at h
    subst h
    exact ⟨hc0, hc1⟩
  | some w =>
    cases w with
    | num q =>
      simp only [coerceWaterCut] at h
      split at h
      · rename_i hq
        simp only [Option.some.injEq] at h
        subst h
        exact hq
      · simp only [Option.some.injEq] at h
        subst h
        exact ⟨hc0, hc1⟩
    | null =>
      simp only [coerceWaterCut, Option.some.injEq] at h
      subst h
      exact ⟨hc0, hc1⟩
    | nonNum =>
      simp only [coerceWaterCut] at h
      exact absurd h (by simp)

/-- A Sample built by `from_record` from a carried water cut in `[0, 100]`
has its own water cut in `[0, 100]`. -/
theorem from_record_water_cut_mem (r : RawRecord) (now : ℤ) (c : ℚ)
    (d : ProductionData) (hc0 : 0 ≤ c) (hc1 : c ≤ 100)
    (hd : ProductionData.from_record r now c = some d) :
    0 ≤ d.water_cut ∧ d.water_cut ≤ 100 := by
  unfold ProductionData.from_record at hd
  rcases hg : coerceRate r.gross_fluid_rate with _ | g <;> rw [hg] at hd <;>
    rcases hwc : coerceWaterCut r.water_cut c with _ | wc <;> rw [hwc] at hd <;>
      rcases hinj : coerceRate r.current_injection_rate with _ | inj <;> rw [hinj] at hd <;>
        simp only [Option.some.injEq, reduceCtorEq] at hd
  subst hd
  exact coerceWaterCut_bounds r.water_cut c wc hc0 hc1 hwc

/-- Claim C10: across every sequence of `optimize` calls on one
optimizer, the stored last valid water cut stays in `[0, 100]` (it starts
at 50 and is only overwritten by a sample water cut the guard checked),
and every Sample `from_record` builds from that carried state has its
water cut in `[0, 100]`. -/
theorem c10_water_cut_invariant (s : WellSettings)
    (calls : List (ProductionData × Option ℚ)) :
    (0 ≤ (runCalls s initState calls).last_valid_water_cut ∧
      (runCalls s initState calls).last_valid_water_cut ≤ 100) ∧
    ∀ (r : RawRecord) (now : ℤ) (d : ProductionData),
      ProductionData.from_record r now
          (runCalls s initState calls).last_valid_water_cut = some d →
        0 ≤ d.water_cut ∧ d.water_cut ≤ 100 := by
  have main : ∀ (cs : List (ProductionData × Option ℚ)) (st : OptState),
      0 ≤ st.last_valid_water_cut ∧ st.last_valid_water_cut ≤ 100 →
      0 ≤ (runCalls s st cs).last_valid_water_cut ∧
        (runCalls s st cs).last_valid_water_cut ≤ 100 := by
    intro cs
    induction cs with
    | nil => intro st h; exact h
    | cons a rest ih =>
      intro st h
      obtain ⟨d, p⟩ := a
      exact ih (optimize s st d p).2 (optimize_water_cut_step s st d p h)
  have hstate := main calls initState ⟨by norm_num [initState], by norm_num [initState]⟩
  refine ⟨hstate, ?_⟩
  intro r now d hd
  exact from_record_water_cut_mem r now _ d hstate.1 hstate.2 hd

/-- Witness for C10: one call with water cut 80 stores 80; a record with
no water-cut field forward-fills 80 into the built Sample. -/
theorem c10_witness :
    (0 ≤ (runCalls default_settings initState
        [(⟨100, 1000, 80, 5, true⟩, none)]).last_valid_water_cut ∧
      (runCalls default_settings initState
        [(⟨100, 1000, 80, 5, true⟩, none)]).last_valid_water_cut ≤ 100) ∧
    (0 ≤ (⟨5, 0, 80, 0, false⟩ : ProductionData).water_cut ∧
      (⟨5, 0, 80, 0, false⟩ : ProductionData).water_cut ≤ 100) :=
  ⟨(c10_water_cut_invariant default_settings [(⟨100, 1000, 80, 5, true⟩, none)]).1,
   (c10_water_cut_invariant default_settings [(⟨100, 1000, 80, 5, true⟩, none)]).2
     ⟨some 5, none, none, none⟩ 0 ⟨5, 0, 80, 0, false⟩ rfl⟩
